import Mathlib

/-!
Verification development for the solid-better-refresh identity-resolution and
persistence-registry engine.

The definitions below are a shallow embedding of the two components:

* the runtime registry (file src/runtime.ts): fingerprinting of external
  inputs, counter-key and instance-key derivation, per-cycle instance
  counters with a deferred microtask reset, the registry itself, per-unit
  structural invalidation, and the deduplicated ambiguity warning;
* the source transform (the Babel plugin): per-(unit, category) call-order
  counters, the per-unit persisted-primitive totals used for the emitted
  structural summary, and the spread-argument skip.

JavaScript objects holding opaque prop values are modelled as association
lists over a small universe of JavaScript values; stored state values are
modelled as opaque naturals; a factory invocation is modelled by the value
the factory would return, plus a flag recording whether it was invoked.
-/

namespace SolidBetterRefresh

/-- A JavaScript value as far as the fingerprinting logic can observe it:
primitives carry their payload, objects and functions are opaque. -/
inductive JsVal where
  | str (s : String)
  | num (n : Int)
  | jsBool (b : Bool)
  | jsNull
  | undef
  | obj
  | fn
deriving DecidableEq

/-- Template-literal coercion of a JsVal to a string, as in JS backtick
interpolation. Only ever applied to primitives by the embedded code. -/
def valToString : JsVal → String
  | .str s => s
  | .num n => toString n
  | .jsBool b => if b then ("true") else ("false")
  | .jsNull => ("null")
  | .undef => ("undefined")
  | .obj => ("[object Object]")
  | .fn => ("function")

/-- isPrimitive from runtime.ts: v == null, or typeof v is neither
"object" nor "function". -/
def isPrimitive : JsVal → Bool
  | .obj => false
  | .fn => false
  | _ => true

/-- A props object: an association list from field name to value, in
insertion order (JS object key order for string keys). -/
abbrev Props := List (String × JsVal)

/-- First-match association-list lookup (JS property access / Map.get). -/
def alookup {α : Type} : List (String × α) → String → Option α
  | [], _ => none
  | (k, v) :: rest, q => if k = q then some v else alookup rest q

/-- Association-list update (JS Map.set / object property assignment):
overwrite in place, else append. -/
def aset {α : Type} : List (String × α) → String → α → List (String × α)
  | [], q, v => [(q, v)]
  | (k, w) :: rest, q, v =>
    if k = q then (k, v) :: rest else (k, w) :: aset rest q v

/-- Insertion into a sorted list of strings, by the lexicographic order. -/
def insertSorted (s : String) : List String → List String
  | [] => [s]
  | x :: xs => if s ≤ x then s :: x :: xs else x :: insertSorted s xs

/-- Sorting of the key list, as Object.keys(props).sort(). -/
def sortStrings : List String → List String
  | [] => []
  | x :: xs => insertSorted x (sortStrings xs)

/-- join("&") on the collected field=value parts. -/
def joinAmp : List String → String
  | [] => ("")
  | [p] => p
  | p :: q :: rest => p ++ ("&") ++ joinAmp (q :: rest)

/-- The slow path of fingerprintProps: all primitive-valued fields,
sorted by field name, rendered as field=value pairs joined by "&";
null when no primitive field exists. -/
def fingerprintSlow (props : Props) : Option String :=
  let parts := (sortStrings (props.map Prod.fst)).filterMap
    (fun k =>
      match alookup props k with
      | some v => if isPrimitive v then some (k ++ ("=") ++ valToString v) else none
      | none => none)
  if parts.isEmpty then none else some (joinAmp parts)

/-- The "key" fast path of fingerprintProps, falling through to the slow
path when the field is absent or non-primitive. -/
def fingerprintFromKeyField (props : Props) : Option String :=
  match alookup props ("key") with
  | some kv => if isPrimitive kv then some (("key=") ++ valToString kv) else fingerprintSlow props
  | none => fingerprintSlow props

/-- The "id" fast path of fingerprintProps. -/
def fingerprintFromId (props : Props) : Option String :=
  match alookup props ("id") with
  | some idv => if isPrimitive idv then some (("id=") ++ valToString idv) else fingerprintFromKeyField props
  | none => fingerprintFromKeyField props

/-- fingerprintProps from runtime.ts: the injected call-site token is
checked first, then the "id" field, then the "key" field, then the slow
path over all primitive fields. -/
def fingerprintProps (props : Props) : Option String :=
  match alookup props ("__hmrSite") with
  | some site => if isPrimitive site then some (("site=") ++ valToString site) else fingerprintFromId props
  | none => fingerprintFromId props

/-- hasPrimitiveIdentity from runtime.ts: the props object carries an
"id" or "key" field holding a primitive. -/
def hasPrimitiveIdentity (props : Option Props) : Bool :=
  match props with
  | none => false
  | some p =>
    (match alookup p ("id") with | some v => isPrimitive v | none => false) ||
    (match alookup p ("key") with | some v => isPrimitive v | none => false)

/-- Splitting of a character list on the two-character separator "::"
(JS String.prototype.split with a string separator, leftmost-first). -/
def splitDCAux : List Char → List Char → List (List Char)
  | [], acc => [acc.reverse]
  | ':' :: ':' :: rest, acc => acc.reverse :: splitDCAux rest []
  | c :: rest, acc => splitDCAux rest (c :: acc)

/-- componentFromKey from runtime.ts: key.split("::")[1] ?? "". -/
def componentFromKey (key : String) : String :=
  match splitDCAux key.data [] with
  | _ :: second :: _ => ⟨second⟩
  | _ => ("")

/-- The fingerprint actually computed by persist: null when no props
object was passed. -/
def fingerprintOf (props : Option Props) : Option String :=
  match props with
  | none => none
  | some p => fingerprintProps p

/-- CounterKey derivation: the persist key, suffixed with ::fp:fingerprint
when a fingerprint was found. -/
def counterKeyOf (key : String) (props : Option Props) : String :=
  match fingerprintOf props with
  | some f => key ++ ("::fp:") ++ f
  | none => key

/-- InstanceKey derivation: counterKey::instanceNumber. -/
def instKey (ck : String) (num : Nat) : String :=
  ck ++ ("::") ++ Nat.repr num

/-- startsWith over the underlying character lists. -/
def strStartsWith (s p : String) : Bool :=
  p.data.isPrefixOf s.data

/-- The ambiguous-by-position test of persist: no fingerprint at all, or a
fingerprint resolved from the call-site token with no primitive id/key
field present. -/
def ambiguousByPosition (props : Option Props) : Bool :=
  match fingerprintOf props with
  | none => true
  | some f => strStartsWith f ("site=") && !hasPrimitiveIdentity props

/-- The invalidation slot in hot.data: absent on first load, an explicit
null marker after a no-change structure check, or the set of changed unit
names. -/
inductive InvalidState where
  | unset
  | noneMarker
  | set (names : List String)
deriving DecidableEq

/-- A structural summary: unit name to persisted-primitive count. -/
abbrev StructMap := List (String × Nat)

/-- The contents of hot.data as used by the runtime: the registry
(InstanceKey to stored value), the previous structure snapshot, the
invalidation slot, the per-cycle instance counters, and the set of
counter keys already warned about. -/
structure HotData where
  registry : List (String × Nat)
  prevStructure : Option StructMap
  invalid : InvalidState
  counters : List (String × Nat)
  warned : List String
deriving DecidableEq

/-- A store handle: hot.data plus the module-level pendingResets marker
for this hot.data (whether a microtask counter reset is queued). -/
structure Store where
  data : HotData
  pending : Bool
deriving DecidableEq

/-- The empty session store. -/
def Store.init : Store :=
  { data := { registry := [], prevStructure := none, invalid := .unset,
              counters := [], warned := [] },
    pending := false }

/-- Whether the current invalidation slot forces recreation for the unit
embedded in the given persist key: invalidated?.has(componentFromKey(key)). -/
def invalidForces (d : HotData) (key : String) : Bool :=
  match d.invalid with
  | .set names => names.contains (componentFromKey key)
  | _ => false

/-- The result of one persist call with a store handle present: the
returned value, the updated store, whether the factory was invoked,
whether a new ambiguity warning was emitted, and the instance number the
call was assigned. -/
structure PRes where
  value : Nat
  store : Store
  factoryCalled : Bool
  warnedNow : Bool
  instanceNum : Nat
deriving DecidableEq

/-- The body of __hmr_persist after the null-store early return, from
runtime.ts: schedule the idempotent counter reset, derive the counter key
from the fingerprint, assign and bump the instance counter, emit the
deduplicated ambiguity warning when applicable, then resolve the value:
forced recreation when the unit is invalidated, else registry hit, else
first creation. freshVal is the value the factory returns if invoked;
dev is the isDevMode() flag. -/
def persistCore (s : Store) (key : String) (props : Option Props)
    (freshVal : Nat) (dev : Bool) : PRes :=
  let ck := counterKeyOf key props
  let num := (alookup s.data.counters ck).getD 0
  let counters' := aset s.data.counters ck (num + 1)
  let warnNow := ambiguousByPosition props && decide (0 < num) && dev
      && !(s.data.warned.contains ck)
  let warned' := if warnNow then ck :: s.data.warned else s.data.warned
  let ikey := instKey ck num
  let d := { s.data with counters := counters', warned := warned' }
  if invalidForces s.data key then
    { value := freshVal, factoryCalled := true, warnedNow := warnNow,
      instanceNum := num,
      store := { data := { d with registry := aset d.registry ikey freshVal },
                 pending := true } }
  else
    match alookup d.registry ikey with
    | some w =>
      { value := w, factoryCalled := false, warnedNow := warnNow,
        instanceNum := num, store := { data := d, pending := true } }
    | none =>
      { value := freshVal, factoryCalled := true, warnedNow := warnNow,
        instanceNum := num,
        store := { data := { d with registry := aset d.registry ikey freshVal },
                   pending := true } }

/-- __hmr_persist entry point: with no store handle the factory result is
returned directly and nothing else happens (pass-through); otherwise the
full registry logic runs. Returns (value, store, factoryCalled). -/
def hmrPersist (hot : Option Store) (key : String) (props : Option Props)
    (freshVal : Nat) (dev : Bool) : Nat × Option Store × Bool :=
  match hot with
  | none => (freshVal, none, true)
  | some s =>
    let r := persistCore s key props freshVal dev
    (r.value, some r.store, r.factoryCalled)

/-- The deferred microtask reset scheduled by scheduleCursorReset: once
the synchronous batch ends, if a reset is pending it clears the instance
counters and the pending marker. -/
def flush (s : Store) : Store :=
  if s.pending then
    { data := { s.data with counters := [] }, pending := false }
  else s

/-- Insertion-order deduplication (JS Set construction). -/
def dedup : List String → List String
  | [] => []
  | x :: xs => x :: (dedup xs).filter (fun y => y ≠ x)

/-- The set of unit names whose count differs between the two snapshots
(symmetric difference over the union of their key sets). -/
def changedOf (prev cur : StructMap) : List String :=
  (dedup (prev.map Prod.fst ++ cur.map Prod.fst)).filter
    (fun name => decide (alookup prev name ≠ alookup cur name))

/-- __hmr_checkStructure from runtime.ts with hot.data present: reset the
instance counters, then on a non-first call diff the snapshots, delete
exactly the registry entries of changed units and record the changed set
(or the explicit null marker), and finally store the new snapshot. The
Bool records whether the structure-changed diagnostic was emitted. -/
def checkStructure (d : HotData) (cur : StructMap) : HotData × Bool :=
  let d0 := { d with counters := ([] : List (String × Nat)) }
  match d0.prevStructure with
  | none => ({ d0 with prevStructure := some cur }, false)
  | some prev =>
    let changed := changedOf prev cur
    if changed.isEmpty then
      ({ d0 with invalid := .noneMarker, prevStructure := some cur }, false)
    else
      ({ d0 with
          registry := d0.registry.filter
            (fun kv => !(changed.contains (componentFromKey kv.fst))),
          invalid := .set changed,
          prevStructure := some cur }, true)

/-- The production stub's persist: unconditional pass-through with the
same signature, regardless of the store handle. -/
def prodStubPersist (hot : Option Store) (key : String) (props : Option Props)
    (freshVal : Nat) : Nat :=
  freshVal

/-- The production stub's structure check: a no-op. -/
def prodStubCheckStructure (d : Option HotData) (cur : StructMap) : Option HotData :=
  d

/-- The outputs of one persist call recorded while running a batch. -/
structure BOut where
  value : Nat
  factoryCalled : Bool
  instanceNum : Nat
deriving DecidableEq

/-- One synchronous render batch: a sequence of persist calls with the
same key and props, fed the would-be factory results in order. -/
def runBatch (key : String) (props : Option Props) (dev : Bool) :
    Store → List Nat → Store × List BOut
  | s, [] => (s, [])
  | s, v :: vs =>
    let r := persistCore s key props v dev
    let rest := runBatch key props dev r.store vs
    (rest.fst, { value := r.value, factoryCalled := r.factoryCalled,
                 instanceNum := r.instanceNum } :: rest.snd)

/-- Repeated ancestor-triggered re-render batches: before each batch the
pending microtask reset (if any) fires, then the batch runs with no
intervening structure check. -/
def batchIter (key : String) (props : Option Props) (dev : Bool)
    (vals : List Nat) : Store → Nat → Store × List (List BOut)
  | s, 0 => (s, [])
  | s, reps + 1 =>
    let prev := batchIter key props dev vals s reps
    let next := runBatch key props dev (flush prev.fst) vals
    (next.fst, prev.snd ++ [next.snd])

/-- A state-primitive call site as the transform's CallExpression visitor
classifies it: the callee's identifier or final member-property name (if
it has that shape), the enclosing-unit resolution result, and whether any
argument uses a spread form. -/
structure CallSite where
  calleeName : Option String
  component : Option String
  hasSpread : Bool
deriving DecidableEq

/-- The default primitive map of the Babel plugin: primitive name to
category. -/
def primitiveMapD (name : String) : Option String :=
  if name = ("createSignal") then some ("signal")
  else if name = ("createStore") then some ("store")
  else none

/-- The per-file mutable state of the transform pass. -/
structure TState where
  hasInjectedImport : Bool
  counters : List (String × Nat)
  componentPrimitiveCounts : List (String × Nat)
deriving DecidableEq

/-- The initial transform state at Program enter. -/
def TState.init : TState :=
  { hasInjectedImport := false, counters := [], componentPrimitiveCounts := [] }

/-- The CallExpression visitor of the Babel plugin: a call with a matched
primitive and a resolved enclosing unit bumps the per-(unit, category)
call-order counter and the per-unit total, and marks the import as
injected, all before the spread check; a spread call is then left
untransformed (no key emitted), every other qualifying call is rewritten
with its stable key. -/
def visitCall (filename : String) (st : TState) (c : CallSite) :
    TState × Option String :=
  match c.calleeName.bind primitiveMapD with
  | none => (st, none)
  | some cat =>
    match c.component with
    | none => (st, none)
    | some comp =>
      let counterKey := comp ++ ("::") ++ cat
      let currentIndex := (alookup st.counters counterKey).getD 0
      let counters' := aset st.counters counterKey (currentIndex + 1)
      let totals' := aset st.componentPrimitiveCounts comp
        ((alookup st.componentPrimitiveCounts comp).getD 0 + 1)
      let stableKey := filename ++ ("::") ++ comp ++ ("::") ++ cat
        ++ ("::") ++ Nat.repr currentIndex
      let st' : TState :=
        { hasInjectedImport := true, counters := counters',
          componentPrimitiveCounts := totals' }
      if c.hasSpread then (st', none) else (st', some stableKey)

/-- The full pass over the call sites of one file, collecting each
call's emitted key (none = left untransformed). -/
def runTransform (filename : String) : TState → List CallSite → TState × List (Option String)
  | st, [] => (st, [])
  | st, c :: cs =>
    let r := visitCall filename st c
    let rest := runTransform filename r.fst cs
    (rest.fst, r.snd :: rest.snd)

/-- The structural summary emitted at Program exit: one checkStructure
call with the per-unit totals, present iff the import was injected and at
least one unit was counted. -/
def emittedSummary (st : TState) : Option StructMap :=
  if st.hasInjectedImport && !st.componentPrimitiveCounts.isEmpty then
    some st.componentPrimitiveCounts
  else none

/-- Decimal digit list of a natural number, most significant first
(reference function for Nat.repr). -/
def natDigits (n : Nat) : List Char :=
  if h : n < 10 then [Nat.digitChar n]
  else natDigits (n / 10) ++ [Nat.digitChar (n % 10)]
decreasing_by
  exact Nat.div_lt_self (by omega) (by omega)

/-- Decoding of a decimal digit character. -/
def charVal (c : Char) : Nat :=
  if c = '0' then 0 else if c = '1' then 1 else if c = '2' then 2
  else if c = '3' then 3 else if c = '4' then 4 else if c = '5' then 5
  else if c = '6' then 6 else if c = '7' then 7 else if c = '8' then 8
  else if c = '9' then 9 else 0

/-- Decoding of a most-significant-first digit list. -/
def ofDigits (l : List Char) : Nat :=
  l.foldl (fun a c => a * 10 + charVal c) 0

/-- Re-enter a store whose hot.data was mutated in place by a structure
check (the pending marker lives outside hot.data). -/
def withData (s : Store) (d : HotData) : Store :=
  { data := d, pending := s.pending }

/-! ### Concrete scenario traces used by the claims -/

/-- The persist key of the Counter scenario. -/
def c1Key : String := ("f::Counter::signal::0")

/-- The structural summary of the Counter scenario. -/
def c1Struct : StructMap := [(("Counter"), 1)]

/-- hot.data after the first checkStructure of the Counter scenario. -/
def c1d1 : HotData := (checkStructure Store.init.data c1Struct).fst

/-- Counter scenario, cycle 0: three persist calls with factory results
a, b, c. -/
def c1r1 (a : Nat) : PRes :=
  persistCore { data := c1d1, pending := false } c1Key none a true

def c1r2 (a b : Nat) : PRes := persistCore (c1r1 a).store c1Key none b true

def c1r3 (a b c : Nat) : PRes := persistCore (c1r2 a b).store c1Key none c true

/-- Counter scenario: the microtask reset between the cycles. -/
def c1s2 (a b c : Nat) : Store := flush (c1r3 a b c).store

/-- Counter scenario, cycle 1: the second identical checkStructure. -/
def c1d2 (a b c : Nat) : HotData := (checkStructure (c1s2 a b c).data c1Struct).fst

/-- Counter scenario, cycle 1: the same three persist calls with fresh
factory results a2, b2, c2 (unused when the registry hits). -/
def c1r4 (a b c a2 : Nat) : PRes :=
  persistCore (withData (c1s2 a b c) (c1d2 a b c)) c1Key none a2 true

def c1r5 (a b c a2 b2 : Nat) : PRes :=
  persistCore (c1r4 a b c a2).store c1Key none b2 true

def c1r6 (a b c a2 b2 c2 : Nat) : PRes :=
  persistCore (c1r5 a b c a2 b2).store c1Key none c2 true

/-- A props object carrying both a scalar call-site token and a scalar
id field. -/
def c2Props : Props := [(("__hmrSite"), .str ("s")), (("id"), .num 7)]

/-- The persist key of the App invalidation scenario. -/
def c3Key : String := ("f::App::signal::0")

/-- App scenario: first load with one persisted primitive. -/
def c3d1 : HotData := (checkStructure Store.init.data [(("App"), 1)]).fst

/-- App scenario: the value created on first load. -/
def c3r1 : PRes := persistCore { data := c3d1, pending := false } c3Key none 10 true

/-- App scenario: reload with a changed count, flagging App as invalidated. -/
def c3d2 : HotData := (checkStructure (flush c3r1.store).data [(("App"), 2)]).fst

/-- App scenario: the persist call of the cycle that detected the change. -/
def c3r2 : PRes :=
  persistCore (withData (flush c3r1.store) c3d2) c3Key none 20 true

/-- App scenario: a persist call in a later batch after the deferred
counter reset fired, with no intervening checkStructure. -/
def c3r3 : PRes := persistCore (flush c3r2.store) c3Key none 30 true

/-- A qualifying state-primitive call using a spread argument. -/
def c4Spread : CallSite :=
  { calleeName := some ("createSignal"), component := some ("App"), hasSpread := true }

/-- A qualifying state-primitive call with a fixed argument list. -/
def c4Plain : CallSite :=
  { calleeName := some ("createSignal"), component := some ("App"), hasSpread := false }

/-- Props with a numeric id 1. -/
def c7PropsNum : Props := [(("id"), .num 1)]

/-- Props with the string id "1". -/
def c7PropsStr : Props := [(("id"), .str ("1"))]

/-- Typed-id collision scenario, cycle 0: instance with numeric id 1
persists first, instance with string id "1" second. -/
def c7n1 : PRes :=
  persistCore { data := c1d1, pending := false } c1Key (some c7PropsNum) 10 true

def c7n2 : PRes := persistCore c7n1.store c1Key (some c7PropsStr) 11 true

/-- Typed-id collision scenario: unchanged-structure reload. -/
def c7d2 : HotData := (checkStructure (flush c7n2.store).data c1Struct).fst

/-- Typed-id collision scenario, cycle 1: reversed order. -/
def c7n3 : PRes :=
  persistCore (withData (flush c7n2.store) c7d2) c1Key (some c7PropsStr) 20 true

def c7n4 : PRes := persistCore c7n3.store c1Key (some c7PropsNum) 21 true

/-- Two positional persist calls (no props at all) in one cycle. -/
def c8w1 : PRes := persistCore { data := c1d1, pending := false } c1Key none 10 true

def c8w2 : PRes := persistCore c8w1.store c1Key none 11 true

/-- Two persist calls whose props carry both a scalar site token and a
scalar id. -/
def c8w3 : PRes :=
  persistCore { data := c1d1, pending := false } c1Key (some c2Props) 10 true

def c8w4 : PRes := persistCore c8w3.store c1Key (some c2Props) 11 true

/-- Fingerprint type-collision scenario: creation under numeric id 1. -/
def c10r1 : PRes :=
  persistCore { data := c1d1, pending := false } c1Key (some c7PropsNum) 10 true

/-- Fingerprint type-collision scenario: unchanged-structure reload. -/
def c10d : HotData := (checkStructure (flush c10r1.store).data c1Struct).fst

/-- Fingerprint type-collision scenario: lookup under string id "1". -/
def c10r2 : PRes :=
  persistCore (withData (flush c10r1.store) c10d) c1Key (some c7PropsStr) 20 true

/-- A session with stored entries for units A and B and a previous
snapshot mapping each to one persisted primitive. -/
def c5Data : HotData :=
  { registry := [(("f::A::signal::0::0"), 1), (("f::B::signal::0::0"), 2)],
    prevStructure := some [(("A"), 1), (("B"), 1)],
    invalid := .unset, counters := [], warned := [] }

/-- The incoming snapshot where only unit A's count changed. -/
def c5Cur : StructMap := [(("A"), 2), (("B"), 1)]

/-- A fresh session store right after its first checkStructure call. -/
def c7state0 (st : StructMap) : Store :=
  { data := (checkStructure Store.init.data st).fst, pending := false }

/-- Reorder scenario, cycle N: instance X persists first. -/
def c7run1 (key : String) (pX : Props) (vX : Nat) (dev : Bool) (st : StructMap) : PRes :=
  persistCore (c7state0 st) key (some pX) vX dev

/-- Reorder scenario, cycle N: instance Y persists second. -/
def c7run2 (key : String) (pX pY : Props) (vX vY : Nat) (dev : Bool)
    (st : StructMap) : PRes :=
  persistCore (c7run1 key pX vX dev st).store key (some pY) vY dev

/-- Reorder scenario: the deferred reset between the cycles. -/
def c7state1 (key : String) (pX pY : Props) (vX vY : Nat) (dev : Bool)
    (st : StructMap) : Store :=
  flush (c7run2 key pX pY vX vY dev st).store

/-- Reorder scenario: the unchanged-structure checkStructure of cycle N+1. -/
def c7state2 (key : String) (pX pY : Props) (vX vY : Nat) (dev : Bool)
    (st : StructMap) : Store :=
  withData (c7state1 key pX pY vX vY dev st)
    ((checkStructure (c7state1 key pX pY vX vY dev st).data st).fst)

/-- Reorder scenario, cycle N+1: instance Y persists first now. -/
def c7run3 (key : String) (pX pY : Props) (vX vY v3 : Nat) (dev : Bool)
    (st : StructMap) : PRes :=
  persistCore (c7state2 key pX pY vX vY dev st) key (some pY) v3 dev

/-- Reorder scenario, cycle N+1: instance X persists second now. -/
def c7run4 (key : String) (pX pY : Props) (vX vY v3 v4 : Nat) (dev : Bool)
    (st : StructMap) : PRes :=
  persistCore (c7run3 key pX pY vX vY v3 dev st).store key (some pX) v4 dev

/-- Props with the string id "a". -/
def c7pa : Props := [(("id"), .str ("a"))]

/-- Props with the string id "b". -/
def c7pb : Props := [(("id"), .str ("b"))]

/-! ### Association list and string lemmas -/

theorem alookup_aset_self {α : Type} (m : List (String × α)) (k : String) (v : α) :
    alookup (aset m k v) k = some v := by
  induction m with
  | nil => simp [aset, alookup]
  | cons hd tl ih =>
    obtain ⟨q, w⟩ := hd
    by_cases h : q = k
    · simp [aset, h, alookup]
    · simp [aset, h, alookup, ih]

theorem alookup_aset_ne {α : Type} (m : List (String × α)) (k q : String) (v : α)
    (h : q ≠ k) : alookup (aset m k v) q = alookup m q := by
  induction m with
  | nil => simp [aset, alookup, Ne.symm h]
  | cons hd tl ih =>
    obtain ⟨p, w⟩ := hd
    by_cases hp : p = k
    · subst hp
      simp [aset, alookup, Ne.symm h]
    · simp only [aset, if_neg hp, alookup]
      by_cases hq : p = q
      · simp [hq]
      · simp [hq, ih]

theorem alookup_filter {α : Type} (p : String → Bool) (m : List (String × α)) (q : String) :
    alookup (m.filter (fun kv => p kv.fst)) q = if p q then alookup m q else none := by
  induction m with
  | nil => simp [alookup]
  | cons hd tl ih =>
    obtain ⟨k, w⟩ := hd
    by_cases hk : p k
    · rw [List.filter_cons_of_pos (by simpa using hk)]
      by_cases hq : k = q
      · subst hq; simp [alookup, hk]
      · simp [alookup, hq, ih]
    · rw [List.filter_cons_of_neg (by simpa using hk)]
      by_cases hq : k = q
      · subst hq; simp [alookup, hk, ih]
      · simp [alookup, hq, ih]

theorem mem_dedup {a : String} : ∀ {l : List String}, a ∈ dedup l ↔ a ∈ l := by
  intro l
  induction l with
  | nil => simp [dedup]
  | cons x xs ih =>
    by_cases h : a = x
    · subst h; simp [dedup]
    · simp [dedup, List.mem_filter, h, ih]

theorem alookup_eq_none_of_not_mem_keys {α : Type} {m : List (String × α)} {n : String}
    (h : n ∉ m.map Prod.fst) : alookup m n = none := by
  induction m with
  | nil => rfl
  | cons hd tl ih =>
    obtain ⟨k, w⟩ := hd
    simp only [List.map_cons, List.mem_cons] at h
    push_neg at h
    simp [alookup, Ne.symm h.1, ih h.2]

theorem contains_changedOf (prev cur : StructMap) (n : String) :
    (changedOf prev cur).contains n = true ↔ alookup prev n ≠ alookup cur n := by
  rw [show (changedOf prev cur).contains n = true ↔ n ∈ changedOf prev cur from
    ⟨fun h => List.elem_iff.mp h, fun h => List.elem_iff.mpr h⟩]
  unfold changedOf
  rw [List.mem_filter]
  constructor
  · rintro ⟨-, h⟩
    simpa using h
  · intro h
    refine ⟨?_, by simpa using h⟩
    rw [mem_dedup, List.mem_append]
    by_contra hc
    push_neg at hc
    exact h (by rw [alookup_eq_none_of_not_mem_keys hc.1,
                    alookup_eq_none_of_not_mem_keys hc.2])

theorem string_append_left_cancel {a b c : String} (h : a ++ b = a ++ c) : b = c := by
  apply String.ext
  have hd := congrArg String.data h
  simp only [String.data_append] at hd
  exact List.append_cancel_left hd

theorem string_append_right_cancel {a b c : String} (h : a ++ c = b ++ c) : a = b := by
  apply String.ext
  have hd := congrArg String.data h
  simp only [String.data_append] at hd
  exact List.append_cancel_right hd

/-! ### Injectivity of the decimal rendering used in instance keys -/

theorem toDigitsCore_eq_natDigits :
    ∀ (fuel n : Nat) (ds : List Char), n < fuel →
      Nat.toDigitsCore 10 fuel n ds = natDigits n ++ ds := by
  intro fuel
  induction fuel with
  | zero => omega
  | succ f ih =>
    intro n ds h
    simp only [Nat.toDigitsCore]
    by_cases h10 : n / 10 = 0
    · rw [if_pos h10]
      have hn : n < 10 := by omega
      rw [natDigits, dif_pos hn, Nat.mod_eq_of_lt hn]
      rfl
    · rw [if_neg h10]
      have hn : ¬ n < 10 := by omega
      have hq : n / 10 < f := by omega
      rw [ih (n / 10) (Nat.digitChar (n % 10) :: ds) hq]
      conv_rhs => rw [natDigits]
      rw [dif_neg hn]
      simp

theorem repr_data (n : Nat) : (Nat.repr n).data = natDigits n := by
  show (List.asString (Nat.toDigitsCore 10 (n + 1) n [])).data = natDigits n
  rw [toDigitsCore_eq_natDigits (n + 1) n [] (Nat.lt_succ_self n)]
  simp [List.asString]

theorem charVal_digitChar : ∀ m, m < 10 → charVal (Nat.digitChar m) = m := by decide

theorem ofDigits_natDigits (n : Nat) : ofDigits (natDigits n) = n := by
  induction n using Nat.strong_induction_on with
  | _ n ih =>
    by_cases h : n < 10
    · rw [natDigits, dif_pos h]
      simp [ofDigits, charVal_digitChar n h]
    · rw [natDigits, dif_neg h]
      have hdiv : n / 10 < n := Nat.div_lt_self (by omega) (by omega)
      have hih := ih (n / 10) hdiv
      have hmod : charVal (Nat.digitChar (n % 10)) = n % 10 :=
        charVal_digitChar (n % 10) (Nat.mod_lt _ (by omega))
      unfold ofDigits at hih ⊢
      rw [List.foldl_append, hih]
      simp only [List.foldl, hmod]
      omega

theorem natRepr_injective {m n : Nat} (h : Nat.repr m = Nat.repr n) : m = n := by
  have hd : natDigits m = natDigits n := by
    rw [← repr_data, ← repr_data, h]
  have := congrArg ofDigits hd
  rwa [ofDigits_natDigits, ofDigits_natDigits] at this

theorem instKey_num_inj {ck : String} {i j : Nat} (h : instKey ck i = instKey ck j) :
    i = j := by
  unfold instKey at h
  exact natRepr_injective (string_append_left_cancel h)

theorem instKey_ck_inj {a b : String} {n : Nat} (h : instKey a n = instKey b n) :
    a = b := by
  unfold instKey at h
  exact string_append_right_cancel (string_append_right_cancel h)

theorem invalidForces_congr {d d' : HotData} (key : String) (h : d.invalid = d'.invalid) :
    invalidForces d key = invalidForces d' key := by
  unfold invalidForces
  rw [h]

/-! ### Single-call characterizations of persist -/

theorem persist_hit (s : Store) (key : String) (props : Option Props) (v : Nat)
    (dev : Bool) (w : Nat)
    (hforce : invalidForces s.data key = false)
    (hhit : alookup s.data.registry
      (instKey (counterKeyOf key props)
        ((alookup s.data.counters (counterKeyOf key props)).getD 0)) = some w) :
    (persistCore s key props v dev).value = w ∧
    (persistCore s key props v dev).factoryCalled = false ∧
    (persistCore s key props v dev).instanceNum
      = (alookup s.data.counters (counterKeyOf key props)).getD 0 ∧
    (persistCore s key props v dev).store.data.registry = s.data.registry ∧
    (persistCore s key props v dev).store.data.counters
      = aset s.data.counters (counterKeyOf key props)
          ((alookup s.data.counters (counterKeyOf key props)).getD 0 + 1) ∧
    (persistCore s key props v dev).store.data.invalid = s.data.invalid ∧
    (persistCore s key props v dev).store.data.prevStructure = s.data.prevStructure ∧
    (persistCore s key props v dev).store.pending = true := by
  simp only [persistCore, hforce, Bool.false_eq_true, if_false, hhit]
  simp

theorem persist_create (s : Store) (key : String) (props : Option Props) (v : Nat)
    (dev : Bool)
    (hforce : invalidForces s.data key = false)
    (hmiss : alookup s.data.registry
      (instKey (counterKeyOf key props)
        ((alookup s.data.counters (counterKeyOf key props)).getD 0)) = none) :
    (persistCore s key props v dev).value = v ∧
    (persistCore s key props v dev).factoryCalled = true ∧
    (persistCore s key props v dev).instanceNum
      = (alookup s.data.counters (counterKeyOf key props)).getD 0 ∧
    (persistCore s key props v dev).store.data.registry
      = aset s.data.registry
          (instKey (counterKeyOf key props)
            ((alookup s.data.counters (counterKeyOf key props)).getD 0)) v ∧
    (persistCore s key props v dev).store.data.counters
      = aset s.data.counters (counterKeyOf key props)
          ((alookup s.data.counters (counterKeyOf key props)).getD 0 + 1) ∧
    (persistCore s key props v dev).store.data.invalid = s.data.invalid ∧
    (persistCore s key props v dev).store.data.prevStructure = s.data.prevStructure ∧
    (persistCore s key props v dev).store.pending = true := by
  simp only [persistCore, hforce, Bool.false_eq_true, if_false, hmiss]
  simp

theorem persist_forced (s : Store) (key : String) (props : Option Props) (v : Nat)
    (dev : Bool)
    (hforce : invalidForces s.data key = true) :
    (persistCore s key props v dev).value = v ∧
    (persistCore s key props v dev).factoryCalled = true ∧
    (persistCore s key props v dev).store.data.registry
      = aset s.data.registry
          (instKey (counterKeyOf key props)
            ((alookup s.data.counters (counterKeyOf key props)).getD 0)) v ∧
    (persistCore s key props v dev).store.data.invalid = s.data.invalid := by
  simp only [persistCore, hforce, if_true]
  simp

/-- flush leaves everything but the counters and the pending marker alone. -/
theorem flush_invariants (s : Store) :
    (flush s).data.registry = s.data.registry ∧
    (flush s).data.invalid = s.data.invalid ∧
    (flush s).data.prevStructure = s.data.prevStructure ∧
    (flush s).data.warned = s.data.warned ∧
    (flush s).pending = false ∨ flush s = s := by
  unfold flush
  by_cases h : s.pending
  · left; simp [h]
  · right; simp [h]

/-! ### Fingerprint lemmas -/

theorem fingerprint_site (p : Props) (site : JsVal)
    (hsite : alookup p ("__hmrSite") = some site)
    (hprim : isPrimitive site = true) :
    fingerprintProps p = some (("site=") ++ valToString site) := by
  unfold fingerprintProps
  rw [hsite]
  simp [hprim]

theorem fingerprint_id (p : Props) (x : JsVal)
    (hsite : alookup p ("__hmrSite") = none)
    (hid : alookup p ("id") = some x)
    (hprim : isPrimitive x = true) :
    fingerprintProps p = some (("id=") ++ valToString x) := by
  unfold fingerprintProps fingerprintFromId
  rw [hsite, hid]
  simp [hprim]

/-- flush does not change the invalidation slot. -/
theorem flush_invalid (s : Store) : (flush s).data.invalid = s.data.invalid := by
  unfold flush
  split <;> rfl

/-- Diffing a snapshot against itself finds no changed unit. -/
theorem changedOf_self (st : StructMap) : changedOf st st = [] := by
  unfold changedOf
  simp

/-- The warning flag of one persist call, characterized. -/
theorem persist_warnedNow (s : Store) (key : String) (props : Option Props)
    (v : Nat) (dev : Bool) :
    (persistCore s key props v dev).warnedNow
      = (ambiguousByPosition props
          && decide (0 < (alookup s.data.counters (counterKeyOf key props)).getD 0)
          && dev
          && !(s.data.warned.contains (counterKeyOf key props))) := by
  simp only [persistCore]
  split
  · rfl
  · split <;> rfl

/-- The warned set after one persist call. -/
theorem persist_warned_update (s : Store) (key : String) (props : Option Props)
    (v : Nat) (dev : Bool) :
    (persistCore s key props v dev).store.data.warned
      = (if (persistCore s key props v dev).warnedNow
          then counterKeyOf key props :: s.data.warned
          else s.data.warned) := by
  simp only [persistCore]
  split
  · rfl
  · split <;> rfl

/-- checkStructure never touches the warned set. -/
theorem checkStructure_warned (d : HotData) (cur : StructMap) :
    (checkStructure d cur).fst.warned = d.warned := by
  simp only [checkStructure]
  split
  · rfl
  · split <;> rfl

/-- The deferred reset never touches the warned set. -/
theorem flush_warned (s : Store) : (flush s).data.warned = s.data.warned := by
  unfold flush
  split <;> rfl

/-! ### Claim theorems -/

/-- C10: fingerprint non-injectivity across runtime types. The props
objects with numeric id 1 and with string id "1" are distinct, yet both
fingerprint to "id=1", share one CounterKey, and a persist call for the
string-id instance returns the value originally stored for the numeric-id
instance, without invoking the factory. -/
theorem c10_fingerprint_type_collision :
    fingerprintProps c7PropsNum = some ("id=1") ∧
    fingerprintProps c7PropsStr = some ("id=1") ∧
    c7PropsNum ≠ c7PropsStr ∧
    counterKeyOf c1Key (some c7PropsNum) = counterKeyOf c1Key (some c7PropsStr) ∧
    c10r1.factoryCalled = true ∧ c10r1.value = 10 ∧
    c10r2.factoryCalled = false ∧ c10r2.value = 10 := by
  decide

/-- C2 counterexample: for a props object containing both a scalar
injected call-site token and a scalar id field, the fingerprint is the
site token, not the id field the claim predicts. -/
theorem c2_fingerprint_priority_counterexample :
    fingerprintProps c2Props = some ("site=s") ∧
    fingerprintProps c2Props ≠ some ("id=7") := by
  decide

/-- C2 amended: a scalar injected call-site token has the highest
priority: whenever props carries a scalar __hmrSite field, the
fingerprint is derived from it, and explicit id/key fields are consulted
only when the token is absent or non-scalar. -/
theorem c2_site_token_priority (p : Props) (site : JsVal)
    (hsite : alookup p ("__hmrSite") = some site)
    (hprim : isPrimitive site = true) :
    fingerprintProps p = some (("site=") ++ valToString site) := by
  unfold fingerprintProps
  rw [hsite]
  simp [hprim]

theorem c2_site_token_priority_witness :
    fingerprintProps c2Props = some (("site=") ++ valToString (JsVal.str ("s"))) :=
  c2_site_token_priority c2Props (JsVal.str ("s")) (by decide) (by decide)

/-- C9: pass-through mode. With no store handle, persist returns exactly
the factory's result on the given arguments, touches no store, and the
production stub behaves as an unconditional pass-through with the same
entry-point signatures, its structure check a no-op. -/
theorem c9_pass_through (key : String) (props : Option Props) (v : Nat) (dev : Bool)
    (hot : Option Store) (d : Option HotData) (cur : StructMap) :
    hmrPersist none key props v dev = (v, none, true) ∧
    prodStubPersist hot key props v = v ∧
    prodStubCheckStructure d cur = d :=
  ⟨rfl, rfl, rfl⟩

/-- C4 counterexample: a spread-argument state-primitive call is left
untransformed (no key emitted), but it does contribute: the next
qualifying call in the same unit receives call-order index 1 rather
than 0, the per-unit total records 2 rather than 1, and a file whose
only qualifying call uses a spread still emits a structural summary
counting it. -/
theorem c4_spread_exclusion_counterexample :
    (runTransform ("f") TState.init [c4Spread, c4Plain]).snd
      = [none, some ("f::App::signal::1")] ∧
    alookup (runTransform ("f") TState.init
      [c4Spread, c4Plain]).fst.componentPrimitiveCounts ("App") = some 2 ∧
    emittedSummary (runTransform ("f") TState.init [c4Spread]).fst
      = some [(("App"), 1)] ∧
    some ("f::App::signal::1") ≠ some ("f::App::signal::0") ∧
    (2 : Nat) ≠ 1 := by
  decide

/-- C4 amended: a qualifying spread-argument call is left untransformed,
but it still increments both the per-(unit, category) call-order counter
and the per-unit total recorded in the structural summary, because the
spread check runs after the counting. -/
theorem c4_spread_untransformed_but_counted (f : String) (st : TState)
    (c : CallSite) (nm cat comp : String)
    (hn : c.calleeName = some nm)
    (hm : primitiveMapD nm = some cat)
    (hcomp : c.component = some comp)
    (hs : c.hasSpread = true) :
    (visitCall f st c).snd = none ∧
    alookup (visitCall f st c).fst.counters (comp ++ ("::") ++ cat)
      = some ((alookup st.counters (comp ++ ("::") ++ cat)).getD 0 + 1) ∧
    alookup (visitCall f st c).fst.componentPrimitiveCounts comp
      = some ((alookup st.componentPrimitiveCounts comp).getD 0 + 1) := by
  simp only [visitCall, hn, Option.some_bind, hm, hcomp, hs, if_true]
  refine ⟨trivial, ?_, ?_⟩ <;> exact alookup_aset_self _ _ _

theorem c4_spread_untransformed_but_counted_witness :
    (visitCall ("f") TState.init c4Spread).snd = none ∧
    alookup (visitCall ("f") TState.init c4Spread).fst.counters
        (("App") ++ ("::") ++ ("signal"))
      = some ((alookup TState.init.counters (("App") ++ ("::") ++ ("signal"))).getD 0 + 1) ∧
    alookup (visitCall ("f") TState.init c4Spread).fst.componentPrimitiveCounts ("App")
      = some ((alookup TState.init.componentPrimitiveCounts ("App")).getD 0 + 1) :=
  c4_spread_untransformed_but_counted ("f") TState.init c4Spread
    ("createSignal") ("signal") ("App") rfl rfl rfl rfl

/-- C8 counterexample: the warning is not emitted exactly under the
claim's condition. A second positional call with no props at all (hence
no fingerprint, not one resolved from the call-site token) does warn;
and a second call whose fingerprint did resolve from the call-site token
but whose props also carry a scalar id does not warn, despite a nonzero
instance number and diagnostics enabled. -/
theorem c8_warning_condition_counterexample :
    c8w2.warnedNow = true ∧
    fingerprintOf (none : Option Props) = none ∧
    c8w4.warnedNow = false ∧
    fingerprintProps c2Props = some ("site=s") ∧
    strStartsWith ("site=s") ("site=") = true ∧
    c8w4.instanceNum = 1 := by
  decide

/-- C8 amended: persist emits the ambiguity warning exactly when the
props are positional-ambiguous (no fingerprint at all, or a site-token
fingerprint with no scalar id/key field), the assigned instance number is
nonzero, diagnostics are enabled, and the CounterKey has not been warned
about before; the warned set then records the CounterKey, and neither
persist (beyond this insertion), checkStructure, nor the deferred reset
ever removes entries, so at most one warning is emitted per CounterKey
per session. -/
theorem c8_warning_characterization (s : Store) (key : String)
    (props : Option Props) (v : Nat) (dev : Bool) (cur : StructMap) :
    (persistCore s key props v dev).warnedNow
      = (ambiguousByPosition props
          && decide (0 < (alookup s.data.counters (counterKeyOf key props)).getD 0)
          && dev
          && !(s.data.warned.contains (counterKeyOf key props))) ∧
    (persistCore s key props v dev).store.data.warned
      = (if (persistCore s key props v dev).warnedNow
          then counterKeyOf key props :: s.data.warned
          else s.data.warned) ∧
    ((persistCore s key props v dev).store.data.warned.contains (counterKeyOf key props)
      = ((persistCore s key props v dev).warnedNow
          || s.data.warned.contains (counterKeyOf key props))) ∧
    (checkStructure s.data cur).fst.warned = s.data.warned ∧
    (flush s).data.warned = s.data.warned := by
  refine ⟨persist_warnedNow s key props v dev, persist_warned_update s key props v dev,
    ?_, checkStructure_warned s.data cur, flush_warned s⟩
  rw [persist_warned_update s key props v dev]
  by_cases hw : (persistCore s key props v dev).warnedNow = true
  · simp [hw]
  · have hw' : (persistCore s key props v dev).warnedNow = false := by
      revert hw
      cases (persistCore s key props v dev).warnedNow <;> simp
    simp [hw']

/-- C3 counterexample: after checkStructure flags App (count 1 to 2),
the invalidation outlives the cycle: the deferred counter reset fires,
no further checkStructure runs (ancestor-triggered batch), and the next
persist call for App still re-runs the factory and returns the fresh
value 30 instead of the stored value 20 the claim requires. -/
theorem c3_invalidation_scope_counterexample :
    c3d2.invalid = InvalidState.set [("App")] ∧
    c3r2.factoryCalled = true ∧ c3r2.value = 20 ∧
    (flush c3r2.store).data.invalid = InvalidState.set [("App")] ∧
    c3r3.factoryCalled = true ∧ c3r3.value = 30 ∧
    (30 : Nat) ≠ 20 := by
  decide

/-- C3 amended: a unit name in the InvalidatedSet forces recreation in
every batch until the next checkStructure call: the end-of-batch counter
reset leaves the invalidation in place, any persist call for the unit
after the reset still re-runs the factory, and only a checkStructure
with unchanged structure replaces the set with the explicit no-invalidation
marker. -/
theorem c3_invalidation_until_next_check (s : Store) (key : String)
    (props : Option Props) (v : Nat) (dev : Bool) (cur : StructMap)
    (hforce : invalidForces s.data key = true)
    (hprev : s.data.prevStructure = some cur) :
    invalidForces (flush s).data key = true ∧
    (persistCore (flush s) key props v dev).factoryCalled = true ∧
    (persistCore (flush s) key props v dev).value = v ∧
    (checkStructure s.data cur).fst.invalid = InvalidState.noneMarker := by
  have hflush : invalidForces (flush s).data key = true := by
    rw [invalidForces_congr key (flush_invalid s)]
    exact hforce
  have hp := persist_forced (flush s) key props v dev hflush
  refine ⟨hflush, hp.2.1, hp.1, ?_⟩
  unfold checkStructure
  have : ({ s.data with counters := ([] : List (String × Nat)) }).prevStructure
      = some cur := by
    simpa using hprev
  rw [this]
  simp [changedOf_self]

theorem c3_invalidation_until_next_check_witness :
    invalidForces (flush { data := c3d2, pending := true }).data c3Key = true ∧
    (persistCore (flush { data := c3d2, pending := true }) c3Key none 30 true).factoryCalled = true ∧
    (persistCore (flush { data := c3d2, pending := true }) c3Key none 30 true).value = 30 ∧
    (checkStructure ({ data := c3d2, pending := true } : Store).data
      [(("App"), 2)]).fst.invalid = InvalidState.noneMarker :=
  c3_invalidation_until_next_check { data := c3d2, pending := true } c3Key none 30 true
    [(("App"), 2)] (by decide) (by decide)

/-- C1: the core persistence scenario. After checkStructure with
Counter mapped to 1, three persist calls with the same key and no
external input get instance numbers 0, 1, 2, each invoking the factory
and returning its three distinct results (here 100, 101, 102) in order;
after a second identical checkStructure, the same three calls return
exactly those three stored values in the same order, with instance
numbers 0, 1, 2 again and zero factory invocations. -/
theorem c1_core_scenario :
    (c1r1 100).instanceNum = 0 ∧ (c1r2 100 101).instanceNum = 1 ∧
    (c1r3 100 101 102).instanceNum = 2 ∧
    (c1r1 100).factoryCalled = true ∧ (c1r2 100 101).factoryCalled = true ∧
    (c1r3 100 101 102).factoryCalled = true ∧
    (c1r1 100).value = 100 ∧ (c1r2 100 101).value = 101 ∧
    (c1r3 100 101 102).value = 102 ∧
    (c1r1 100).value ≠ (c1r2 100 101).value ∧
    (c1r1 100).value ≠ (c1r3 100 101 102).value ∧
    (c1r2 100 101).value ≠ (c1r3 100 101 102).value ∧
    (c1r4 100 101 102 200).instanceNum = 0 ∧
    (c1r5 100 101 102 200 201).instanceNum = 1 ∧
    (c1r6 100 101 102 200 201 202).instanceNum = 2 ∧
    (c1r4 100 101 102 200).value = 100 ∧
    (c1r5 100 101 102 200 201).value = 101 ∧
    (c1r6 100 101 102 200 201 202).value = 102 ∧
    (c1r4 100 101 102 200).factoryCalled = false ∧
    (c1r5 100 101 102 200 201).factoryCalled = false ∧
    (c1r6 100 101 102 200 201 202).factoryCalled = false := by
  decide

/-- What checkStructure does on a non-first call, as one case split on
whether any unit changed. -/
theorem checkStructure_changed (d : HotData) (prev cur : StructMap)
    (hprev : d.prevStructure = some prev) :
    (checkStructure d cur).fst
      = if (changedOf prev cur).isEmpty then
          { d with counters := [], invalid := InvalidState.noneMarker,
                   prevStructure := some cur }
        else
          { d with counters := [],
                   registry := d.registry.filter
                     (fun kv => !((changedOf prev cur).contains (componentFromKey kv.fst))),
                   invalid := InvalidState.set (changedOf prev cur),
                   prevStructure := some cur } := by
  simp only [checkStructure, hprev]
  split <;> rfl

/-- C5: per-unit invalidation isolation. When checkStructure runs with a
previous snapshot, it deletes exactly the registry entries whose embedded
unit name is in the changed set; a unit b whose count is unchanged is not
in that set, every registry entry of b is left untouched, and a
subsequent persist call for b whose instance key is stored returns the
stored value without invoking b's factory. -/
theorem c5_per_unit_isolation (d : HotData) (prev cur : StructMap) (b : String)
    (hprev : d.prevStructure = some prev)
    (hb : alookup prev b = alookup cur b) :
    (∀ q : String, alookup (checkStructure d cur).fst.registry q
      = if (changedOf prev cur).contains (componentFromKey q) then none
        else alookup d.registry q) ∧
    (changedOf prev cur).contains b = false ∧
    (∀ q : String, componentFromKey q = b →
      alookup (checkStructure d cur).fst.registry q = alookup d.registry q) ∧
    (∀ (pend dev : Bool) (key : String) (props : Option Props) (v w : Nat),
      componentFromKey key = b →
      alookup (checkStructure d cur).fst.registry
        (instKey (counterKeyOf key props)
          ((alookup (checkStructure d cur).fst.counters (counterKeyOf key props)).getD 0))
        = some w →
      (persistCore { data := (checkStructure d cur).fst, pending := pend }
        key props v dev).value = w ∧
      (persistCore { data := (checkStructure d cur).fst, pending := pend }
        key props v dev).factoryCalled = false) := by
  have hD := checkStructure_changed d prev cur hprev
  have hcb : (changedOf prev cur).contains b = false := by
    rw [Bool.eq_false_iff]
    intro hq
    exact (contains_changedOf prev cur b).mp hq hb
  have hreg : ∀ q : String, alookup (checkStructure d cur).fst.registry q
      = if (changedOf prev cur).contains (componentFromKey q) then none
        else alookup d.registry q := by
    intro q
    rw [hD]
    by_cases hch : (changedOf prev cur).isEmpty
    · rw [if_pos hch]
      have hnil : changedOf prev cur = [] := by
        cases hcc : changedOf prev cur
        · rfl
        · rw [hcc] at hch
          simp at hch
      simp [hnil]
    · rw [if_neg hch]
      show alookup (d.registry.filter
        (fun kv => !((changedOf prev cur).contains (componentFromKey kv.fst)))) q = _
      rw [alookup_filter (fun k => !((changedOf prev cur).contains (componentFromKey k)))
        d.registry q]
      by_cases hc : (changedOf prev cur).contains (componentFromKey q)
      · simp [hc]
      · simp [hc]
  have hforce : ∀ key : String, componentFromKey key = b →
      invalidForces (checkStructure d cur).fst key = false := by
    intro key hkey
    rw [hD]
    by_cases hch : (changedOf prev cur).isEmpty
    · rw [if_pos hch]
      rfl
    · rw [if_neg hch]
      show (changedOf prev cur).contains (componentFromKey key) = false
      rw [hkey]
      exact hcb
  refine ⟨hreg, hcb, ?_, ?_⟩
  · intro q hq
    rw [hreg q, hq, hcb]
    simp
  · intro pend dev key props v w hkey hhit
    have hp := persist_hit { data := (checkStructure d cur).fst, pending := pend }
      key props v dev w (hforce key hkey) hhit
    exact ⟨hp.1, hp.2.1⟩

theorem c5_per_unit_isolation_witness :
    (∀ q : String, alookup (checkStructure c5Data c5Cur).fst.registry q
      = if (changedOf [(("A"), 1), (("B"), 1)] c5Cur).contains (componentFromKey q) then none
        else alookup c5Data.registry q) ∧
    (changedOf [(("A"), 1), (("B"), 1)] c5Cur).contains ("B") = false ∧
    (∀ q : String, componentFromKey q = ("B") →
      alookup (checkStructure c5Data c5Cur).fst.registry q = alookup c5Data.registry q) ∧
    (∀ (pend dev : Bool) (key : String) (props : Option Props) (v w : Nat),
      componentFromKey key = ("B") →
      alookup (checkStructure c5Data c5Cur).fst.registry
        (instKey (counterKeyOf key props)
          ((alookup (checkStructure c5Data c5Cur).fst.counters (counterKeyOf key props)).getD 0))
        = some w →
      (persistCore { data := (checkStructure c5Data c5Cur).fst, pending := pend }
        key props v dev).value = w ∧
      (persistCore { data := (checkStructure c5Data c5Cur).fst, pending := pend }
        key props v dev).factoryCalled = false) :=
  c5_per_unit_isolation c5Data [(("A"), 1), (("B"), 1)] c5Cur ("B") (by decide) (by decide)

/-- checkStructure on the very first call: record the snapshot, reset the
counters, invalidate nothing. -/
theorem checkStructure_first (d : HotData) (cur : StructMap)
    (h : d.prevStructure = none) :
    (checkStructure d cur).fst = { d with counters := [], prevStructure := some cur } := by
  simp only [checkStructure, h]

/-- An unset invalidation slot forces nothing. -/
theorem invalidForces_unset (d : HotData) (key : String)
    (h : d.invalid = InvalidState.unset) : invalidForces d key = false := by
  unfold invalidForces
  rw [h]

/-- The explicit no-invalidation marker forces nothing. -/
theorem invalidForces_noneMarker (d : HotData) (key : String)
    (h : d.invalid = InvalidState.noneMarker) : invalidForces d key = false := by
  unfold invalidForces
  rw [h]

/-- The deferred reset does not touch the registry. -/
theorem flush_registry (s : Store) : (flush s).data.registry = s.data.registry := by
  unfold flush
  split <;> rfl

/-- The deferred reset does not touch the structure snapshot. -/
theorem flush_prevStructure (s : Store) :
    (flush s).data.prevStructure = s.data.prevStructure := by
  unfold flush
  split <;> rfl

/-- A pending deferred reset clears the instance counters. -/
theorem flush_counters_of_pending (s : Store) (h : s.pending = true) :
    (flush s).data.counters = [] := by
  unfold flush
  simp [h]

/-- C7 counterexample: the numeric id 1 and the string id "1" are
distinct scalar explicit-identity field values, yet after persisting in
order (X, Y) in cycle N and (Y, X) in cycle N+1, Y receives X's stored
value 10 instead of its own 11, and X receives Y's 11: the values swap
instead of following their identities. -/
theorem c7_reorder_identity_counterexample :
    c7PropsNum ≠ c7PropsStr ∧
    alookup c7PropsNum ("id") = some (JsVal.num 1) ∧
    alookup c7PropsStr ("id") = some (JsVal.str ("1")) ∧
    isPrimitive (JsVal.num 1) = true ∧ isPrimitive (JsVal.str ("1")) = true ∧
    c7n1.value = 10 ∧ c7n2.value = 11 ∧
    c7n3.value = 10 ∧ c7n4.value = 11 ∧
    c7n3.value ≠ 11 ∧ c7n4.value ≠ 10 := by
  decide

/-- C7 amended: reorder resilience via explicit identity holds whenever
the two instances' scalar id values have distinct string forms. With no
call-site token, distinct id strings give the two instances distinct
CounterKeys, so after creating (X, Y) in cycle N from a fresh session
and reloading with unchanged structure, persisting in the reversed order
(Y, X) returns each instance exactly its own stored value with no
factory re-invocation. -/
theorem c7_reorder_resilience_distinct_strings (key : String) (pX pY : Props)
    (x y : JsVal) (vX vY v3 v4 : Nat) (dev : Bool) (st : StructMap)
    (hsX : alookup pX ("__hmrSite") = none)
    (hidX : alookup pX ("id") = some x)
    (hpX : isPrimitive x = true)
    (hsY : alookup pY ("__hmrSite") = none)
    (hidY : alookup pY ("id") = some y)
    (hpY : isPrimitive y = true)
    (hxy : valToString x ≠ valToString y) :
    (c7run1 key pX vX dev st).value = vX ∧
    (c7run1 key pX vX dev st).factoryCalled = true ∧
    (c7run2 key pX pY vX vY dev st).value = vY ∧
    (c7run2 key pX pY vX vY dev st).factoryCalled = true ∧
    (c7run3 key pX pY vX vY v3 dev st).value = vY ∧
    (c7run3 key pX pY vX vY v3 dev st).factoryCalled = false ∧
    (c7run4 key pX pY vX vY v3 v4 dev st).value = vX ∧
    (c7run4 key pX pY vX vY v3 v4 dev st).factoryCalled = false := by
  have hfX : fingerprintProps pX = some (("id=") ++ valToString x) :=
    fingerprint_id pX x hsX hidX hpX
  have hfY : fingerprintProps pY = some (("id=") ++ valToString y) :=
    fingerprint_id pY y hsY hidY hpY
  have hckX : counterKeyOf key (some pX)
      = key ++ ("::fp:") ++ (("id=") ++ valToString x) := by
    simp only [counterKeyOf, fingerprintOf, hfX]
  have hckY : counterKeyOf key (some pY)
      = key ++ ("::fp:") ++ (("id=") ++ valToString y) := by
    simp only [counterKeyOf, fingerprintOf, hfY]
  have hckne : counterKeyOf key (some pX) ≠ counterKeyOf key (some pY) := by
    rw [hckX, hckY]
    intro h
    exact hxy (string_append_left_cancel (string_append_left_cancel h))
  have hikne : ∀ n : Nat,
      instKey (counterKeyOf key (some pX)) n ≠ instKey (counterKeyOf key (some pY)) n :=
    fun n h => hckne (instKey_ck_inj h)
  have hd0 : (checkStructure Store.init.data st).fst
      = { Store.init.data with counters := [], prevStructure := some st } :=
    checkStructure_first Store.init.data st rfl
  have h0reg : (c7state0 st).data.registry = [] := by
    show (checkStructure Store.init.data st).fst.registry = []
    rw [hd0]
    rfl
  have h0cnt : (c7state0 st).data.counters = [] := by
    show (checkStructure Store.init.data st).fst.counters = []
    rw [hd0]
  have h0inv : (c7state0 st).data.invalid = InvalidState.unset := by
    show (checkStructure Store.init.data st).fst.invalid = InvalidState.unset
    rw [hd0]
    rfl
  have h0prev : (c7state0 st).data.prevStructure = some st := by
    show (checkStructure Store.init.data st).fst.prevStructure = some st
    rw [hd0]
  have hf0 : invalidForces (c7state0 st).data key = false :=
    invalidForces_unset _ key h0inv
  have hm0 : alookup (c7state0 st).data.registry
      (instKey (counterKeyOf key (some pX))
        ((alookup (c7state0 st).data.counters (counterKeyOf key (some pX))).getD 0))
      = none := by
    rw [h0reg]
    rfl
  obtain ⟨h1v, h1f, h1n, h1r, h1c, h1i, h1p, h1pd⟩ :=
    persist_create (c7state0 st) key (some pX) vX dev hf0 hm0
  have h1reg : (c7run1 key pX vX dev st).store.data.registry
      = aset [] (instKey (counterKeyOf key (some pX)) 0) vX := by
    show (persistCore (c7state0 st) key (some pX) vX dev).store.data.registry = _
    rw [h1r, h0reg, h0cnt]
    rfl
  have h1cnt : (c7run1 key pX vX dev st).store.data.counters
      = aset [] (counterKeyOf key (some pX)) 1 := by
    show (persistCore (c7state0 st) key (some pX) vX dev).store.data.counters = _
    rw [h1c, h0cnt]
    rfl
  have h1inv : (c7run1 key pX vX dev st).store.data.invalid = InvalidState.unset := by
    show (persistCore (c7state0 st) key (some pX) vX dev).store.data.invalid = _
    rw [h1i]
    exact h0inv
  have h1prev : (c7run1 key pX vX dev st).store.data.prevStructure = some st := by
    show (persistCore (c7state0 st) key (some pX) vX dev).store.data.prevStructure = _
    rw [h1p]
    exact h0prev
  have hf1 : invalidForces (c7run1 key pX vX dev st).store.data key = false :=
    invalidForces_unset _ key h1inv
  have h1numY : (alookup (c7run1 key pX vX dev st).store.data.counters
      (counterKeyOf key (some pY))).getD 0 = 0 := by
    rw [h1cnt,
      alookup_aset_ne [] (counterKeyOf key (some pX)) (counterKeyOf key (some pY)) 1
        (Ne.symm hckne)]
    rfl
  have hm1 : alookup (c7run1 key pX vX dev st).store.data.registry
      (instKey (counterKeyOf key (some pY))
        ((alookup (c7run1 key pX vX dev st).store.data.counters
          (counterKeyOf key (some pY))).getD 0))
      = none := by
    rw [h1numY, h1reg,
      alookup_aset_ne [] (instKey (counterKeyOf key (some pX)) 0)
        (instKey (counterKeyOf key (some pY)) 0) vX (Ne.symm (hikne 0))]
    rfl
  obtain ⟨h2v, h2f, h2n, h2r, h2c, h2i, h2p, h2pd⟩ :=
    persist_create (c7run1 key pX vX dev st).store key (some pY) vY dev hf1 hm1
  have h2reg : (c7run2 key pX pY vX vY dev st).store.data.registry
      = aset (aset [] (instKey (counterKeyOf key (some pX)) 0) vX)
          (instKey (counterKeyOf key (some pY)) 0) vY := by
    show (persistCore (c7run1 key pX vX dev st).store key (some pY) vY dev).store.data.registry = _
    rw [h2r, h1numY, h1reg]
  have h2prev : (c7run2 key pX pY vX vY dev st).store.data.prevStructure = some st := by
    show (persistCore (c7run1 key pX vX dev st).store key (some pY) vY dev).store.data.prevStructure = _
    rw [h2p]
    exact h1prev
  have h2pd' : (c7run2 key pX pY vX vY dev st).store.pending = true := h2pd
  have hs1reg : (c7state1 key pX pY vX vY dev st).data.registry
      = aset (aset [] (instKey (counterKeyOf key (some pX)) 0) vX)
          (instKey (counterKeyOf key (some pY)) 0) vY := by
    show (flush (c7run2 key pX pY vX vY dev st).store).data.registry = _
    rw [flush_registry]
    exact h2reg
  have hs1prev : (c7state1 key pX pY vX vY dev st).data.prevStructure = some st := by
    show (flush (c7run2 key pX pY vX vY dev st).store).data.prevStructure = _
    rw [flush_prevStructure]
    exact h2prev
  have hd2 := checkStructure_changed (c7state1 key pX pY vX vY dev st).data st st hs1prev
  rw [changedOf_self] at hd2
  simp only [List.isEmpty_nil, if_true] at hd2
  have hs2reg : (c7state2 key pX pY vX vY dev st).data.registry
      = aset (aset [] (instKey (counterKeyOf key (some pX)) 0) vX)
          (instKey (counterKeyOf key (some pY)) 0) vY := by
    show (checkStructure (c7state1 key pX pY vX vY dev st).data st).fst.registry = _
    rw [hd2]
    exact hs1reg
  have hs2cnt : (c7state2 key pX pY vX vY dev st).data.counters = [] := by
    show (checkStructure (c7state1 key pX pY vX vY dev st).data st).fst.counters = []
    rw [hd2]
  have hs2inv : (c7state2 key pX pY vX vY dev st).data.invalid
      = InvalidState.noneMarker := by
    show (checkStructure (c7state1 key pX pY vX vY dev st).data st).fst.invalid = _
    rw [hd2]
  have hf2 : invalidForces (c7state2 key pX pY vX vY dev st).data key = false :=
    invalidForces_noneMarker _ key hs2inv
  have hm2 : alookup (c7state2 key pX pY vX vY dev st).data.registry
      (instKey (counterKeyOf key (some pY))
        ((alookup (c7state2 key pX pY vX vY dev st).data.counters
          (counterKeyOf key (some pY))).getD 0))
      = some vY := by
    rw [hs2cnt, hs2reg]
    exact alookup_aset_self _ _ _
  obtain ⟨h3v, h3f, h3n, h3r, h3c, h3i, h3p, h3pd⟩ :=
    persist_hit (c7state2 key pX pY vX vY dev st) key (some pY) v3 dev vY hf2 hm2
  have h3reg : (c7run3 key pX pY vX vY v3 dev st).store.data.registry
      = aset (aset [] (instKey (counterKeyOf key (some pX)) 0) vX)
          (instKey (counterKeyOf key (some pY)) 0) vY := by
    show (persistCore (c7state2 key pX pY vX vY dev st) key (some pY) v3 dev).store.data.registry = _
    rw [h3r]
    exact hs2reg
  have h3cnt : (c7run3 key pX pY vX vY v3 dev st).store.data.counters
      = aset [] (counterKeyOf key (some pY)) 1 := by
    show (persistCore (c7state2 key pX pY vX vY dev st) key (some pY) v3 dev).store.data.counters = _
    rw [h3c, hs2cnt]
    rfl
  have h3inv : (c7run3 key pX pY vX vY v3 dev st).store.data.invalid
      = InvalidState.noneMarker := by
    show (persistCore (c7state2 key pX pY vX vY dev st) key (some pY) v3 dev).store.data.invalid = _
    rw [h3i]
    exact hs2inv
  have hf3 : invalidForces (c7run3 key pX pY vX vY v3 dev st).store.data key = false :=
    invalidForces_noneMarker _ key h3inv
  have hm3 : alookup (c7run3 key pX pY vX vY v3 dev st).store.data.registry
      (instKey (counterKeyOf key (some pX))
        ((alookup (c7run3 key pX pY vX vY v3 dev st).store.data.counters
          (counterKeyOf key (some pX))).getD 0))
      = some vX := by
    have h3numX : (alookup (c7run3 key pX pY vX vY v3 dev st).store.data.counters
        (counterKeyOf key (some pX))).getD 0 = 0 := by
      rw [h3cnt,
        alookup_aset_ne [] (counterKeyOf key (some pY)) (counterKeyOf key (some pX)) 1 hckne]
      rfl
    rw [h3numX, h3reg,
      alookup_aset_ne (aset [] (instKey (counterKeyOf key (some pX)) 0) vX)
        (instKey (counterKeyOf key (some pY)) 0) (instKey (counterKeyOf key (some pX)) 0) vY
        (hikne 0)]
    exact alookup_aset_self _ _ _
  obtain ⟨h4v, h4f, h4n, h4r, h4c, h4i, h4p, h4pd⟩ :=
    persist_hit (c7run3 key pX pY vX vY v3 dev st).store key (some pX) v4 dev vX hf3 hm3
  exact ⟨h1v, h1f, h2v, h2f, h3v, h3f, h4v, h4f⟩

theorem c7_reorder_resilience_distinct_strings_witness :
    (c7run1 c1Key c7pa 10 true c1Struct).value = 10 ∧
    (c7run1 c1Key c7pa 10 true c1Struct).factoryCalled = true ∧
    (c7run2 c1Key c7pa c7pb 10 11 true c1Struct).value = 11 ∧
    (c7run2 c1Key c7pa c7pb 10 11 true c1Struct).factoryCalled = true ∧
    (c7run3 c1Key c7pa c7pb 10 11 20 true c1Struct).value = 11 ∧
    (c7run3 c1Key c7pa c7pb 10 11 20 true c1Struct).factoryCalled = false ∧
    (c7run4 c1Key c7pa c7pb 10 11 20 21 true c1Struct).value = 10 ∧
    (c7run4 c1Key c7pa c7pb 10 11 20 21 true c1Struct).factoryCalled = false :=
  c7_reorder_resilience_distinct_strings c1Key c7pa c7pb
    (JsVal.str ("a")) (JsVal.str ("b")) 10 11 20 21 true c1Struct
    (by decide) (by decide) (by decide) (by decide) (by decide) (by decide) (by decide)

/-- Running a batch of persist calls against counters that start at k and
a registry holding ws at the instance keys k, k+1, ...: every call is a
registry hit, the outputs are exactly ws in order with instance numbers
k, k+1, ..., no factory runs, and registry and invalidation are
untouched. -/
theorem runBatch_restore (key : String) (props : Option Props) (dev : Bool) :
    ∀ (vs ws : List Nat) (s : Store) (k : Nat),
      vs.length = ws.length →
      (alookup s.data.counters (counterKeyOf key props)).getD 0 = k →
      invalidForces s.data key = false →
      (∀ i, (hi : i < ws.length) →
        alookup s.data.registry (instKey (counterKeyOf key props) (k + i))
          = some (ws.get ⟨i, hi⟩)) →
      (runBatch key props dev s vs).fst.data.registry = s.data.registry ∧
      (runBatch key props dev s vs).fst.data.invalid = s.data.invalid ∧
      (alookup (runBatch key props dev s vs).fst.data.counters
        (counterKeyOf key props)).getD 0 = k + vs.length ∧
      (vs ≠ [] → (runBatch key props dev s vs).fst.pending = true) ∧
      (runBatch key props dev s vs).snd.map BOut.value = ws ∧
      (runBatch key props dev s vs).snd.map BOut.instanceNum = List.range' k vs.length ∧
      (∀ o ∈ (runBatch key props dev s vs).snd, o.factoryCalled = false) := by
  intro vs
  induction vs with
  | nil =>
    intro ws s k hlen hc hforce hstore
    have hws : ws = [] := List.eq_nil_of_length_eq_zero hlen.symm
    subst hws
    exact ⟨rfl, rfl, by simpa using hc, by simp, rfl, rfl, by simp [runBatch]⟩
  | cons v vs ih =>
    intro ws s k hlen hc hforce hstore
    cases ws with
    | nil => simp at hlen
    | cons w ws' =>
      have hlen' : vs.length = ws'.length := by simpa using hlen
      have hhit0 : alookup s.data.registry
          (instKey (counterKeyOf key props)
            ((alookup s.data.counters (counterKeyOf key props)).getD 0)) = some w := by
        rw [hc]
        have h0 := hstore 0 (by simp)
        simpa using h0
      obtain ⟨rv, rf, rn, rr, rc, rinv, rp, rpd⟩ :=
        persist_hit s key props v dev w hforce hhit0
      have hc' : (alookup (persistCore s key props v dev).store.data.counters
          (counterKeyOf key props)).getD 0 = k + 1 := by
        rw [rc, alookup_aset_self]
        simp [hc]
      have hforce' : invalidForces (persistCore s key props v dev).store.data key
          = false := by
        rw [invalidForces_congr key rinv]
        exact hforce
      have hstore' : ∀ i, (hi : i < ws'.length) →
          alookup (persistCore s key props v dev).store.data.registry
            (instKey (counterKeyOf key props) ((k + 1) + i))
            = some (ws'.get ⟨i, hi⟩) := by
        intro i hi
        rw [rr]
        have hmem := hstore (i + 1) (by simpa using Nat.succ_lt_succ hi)
        have harith : k + (i + 1) = (k + 1) + i := by omega
        rw [harith] at hmem
        exact hmem
      obtain ⟨ir, iinv, ic, ipd, ival, inum, ifc⟩ :=
        ih ws' (persistCore s key props v dev).store (k + 1) hlen' hc' hforce' hstore'
      refine ⟨?_, ?_, ?_, ?_, ?_, ?_, ?_⟩
      · show (runBatch key props dev s (v :: vs)).fst.data.registry = s.data.registry
        simp only [runBatch]
        rw [ir, rr]
      · show (runBatch key props dev s (v :: vs)).fst.data.invalid = s.data.invalid
        simp only [runBatch]
        rw [iinv, rinv]
      · show (alookup (runBatch key props dev s (v :: vs)).fst.data.counters
          (counterKeyOf key props)).getD 0 = k + (v :: vs).length
        simp only [runBatch]
        rw [ic]
        simp only [List.length_cons]
        omega
      · intro hne
        show (runBatch key props dev s (v :: vs)).fst.pending = true
        simp only [runBatch]
        by_cases hvs : vs = []
        · subst hvs
          simpa [runBatch] using rpd
        · exact ipd hvs
      · show (runBatch key props dev s (v :: vs)).snd.map BOut.value = w :: ws'
        simp only [runBatch, List.map_cons]
        rw [rv, ival]
      · show (runBatch key props dev s (v :: vs)).snd.map BOut.instanceNum
          = List.range' k (v :: vs).length
        simp only [runBatch, List.map_cons, List.length_cons, List.range'_succ]
        rw [rn, hc, inum]
      · intro o ho
        show o.factoryCalled = false
        simp only [runBatch, List.mem_cons] at ho
        cases ho with
        | inl h =>
          subst h
          exact rf
        | inr h => exact ifc o h

/-- Running a batch of persist calls against counters that start at k and
a registry with no entries at the instance keys k, k+1, ...: every call
creates, the outputs are the fresh values in order with instance numbers
k, k+1, ..., the created values are stored at those instance keys, and
every other registry key is untouched. -/
theorem runBatch_create (key : String) (props : Option Props) (dev : Bool) :
    ∀ (vs : List Nat) (s : Store) (k : Nat),
      (alookup s.data.counters (counterKeyOf key props)).getD 0 = k →
      invalidForces s.data key = false →
      (∀ i, i < vs.length →
        alookup s.data.registry (instKey (counterKeyOf key props) (k + i)) = none) →
      (runBatch key props dev s vs).fst.data.invalid = s.data.invalid ∧
      (alookup (runBatch key props dev s vs).fst.data.counters
        (counterKeyOf key props)).getD 0 = k + vs.length ∧
      (vs ≠ [] → (runBatch key props dev s vs).fst.pending = true) ∧
      (runBatch key props dev s vs).snd.map BOut.value = vs ∧
      (runBatch key props dev s vs).snd.map BOut.instanceNum = List.range' k vs.length ∧
      (∀ o ∈ (runBatch key props dev s vs).snd, o.factoryCalled = true) ∧
      (∀ i, (hi : i < vs.length) →
        alookup (runBatch key props dev s vs).fst.data.registry
          (instKey (counterKeyOf key props) (k + i)) = some (vs.get ⟨i, hi⟩)) ∧
      (∀ q : String, (∀ i, i < vs.length → q ≠ instKey (counterKeyOf key props) (k + i)) →
        alookup (runBatch key props dev s vs).fst.data.registry q
          = alookup s.data.registry q) := by
  intro vs
  induction vs with
  | nil =>
    intro s k hc hforce hfresh
    exact ⟨rfl, by simpa using hc, by simp, rfl, rfl, by simp [runBatch],
      by simp, fun q _ => rfl⟩
  | cons v vs ih =>
    intro s k hc hforce hfresh
    have hmiss0 : alookup s.data.registry
        (instKey (counterKeyOf key props)
          ((alookup s.data.counters (counterKeyOf key props)).getD 0)) = none := by
      rw [hc]
      have h0 := hfresh 0 (by simp)
      simpa using h0
    obtain ⟨rv, rf, rn, rr, rc, rinv, rp, rpd⟩ :=
      persist_create s key props v dev hforce hmiss0
    have hrr : (persistCore s key props v dev).store.data.registry
        = aset s.data.registry (instKey (counterKeyOf key props) k) v := by
      rw [rr, hc]
    have hc' : (alookup (persistCore s key props v dev).store.data.counters
        (counterKeyOf key props)).getD 0 = k + 1 := by
      rw [rc, alookup_aset_self]
      simp [hc]
    have hforce' : invalidForces (persistCore s key props v dev).store.data key
        = false := by
      rw [invalidForces_congr key rinv]
      exact hforce
    have hfresh' : ∀ i, i < vs.length →
        alookup (persistCore s key props v dev).store.data.registry
          (instKey (counterKeyOf key props) ((k + 1) + i)) = none := by
      intro i hi
      rw [hrr]
      have hne : instKey (counterKeyOf key props) ((k + 1) + i)
          ≠ instKey (counterKeyOf key props) k := by
        intro h
        have := instKey_num_inj h
        omega
      rw [alookup_aset_ne _ _ _ _ hne]
      have hmem := hfresh (i + 1) (by simpa using Nat.succ_lt_succ hi)
      have harith : k + (i + 1) = (k + 1) + i := by omega
      rw [harith] at hmem
      exact hmem
    obtain ⟨iinv, ic, ipd, ival, inum, ifc, istored, iframe⟩ :=
      ih (persistCore s key props v dev).store (k + 1) hc' hforce' hfresh'
    refine ⟨?_, ?_, ?_, ?_, ?_, ?_, ?_, ?_⟩
    · show (runBatch key props dev s (v :: vs)).fst.data.invalid = s.data.invalid
      simp only [runBatch]
      rw [iinv, rinv]
    · show (alookup (runBatch key props dev s (v :: vs)).fst.data.counters
        (counterKeyOf key props)).getD 0 = k + (v :: vs).length
      simp only [runBatch]
      rw [ic]
      simp only [List.length_cons]
      omega
    · intro hne
      show (runBatch key props dev s (v :: vs)).fst.pending = true
      simp only [runBatch]
      by_cases hvs : vs = []
      · subst hvs
        simpa [runBatch] using rpd
      · exact ipd hvs
    · show (runBatch key props dev s (v :: vs)).snd.map BOut.value = v :: vs
      simp only [runBatch, List.map_cons]
      rw [rv, ival]
    · show (runBatch key props dev s (v :: vs)).snd.map BOut.instanceNum
        = List.range' k (v :: vs).length
      simp only [runBatch, List.map_cons, List.length_cons, List.range'_succ]
      rw [rn, hc, inum]
    · intro o ho
      show o.factoryCalled = true
      simp only [runBatch, List.mem_cons] at ho
      cases ho with
      | inl h =>
        subst h
        exact rf
      | inr h => exact ifc o h
    · intro i hi
      show alookup (runBatch key props dev s (v :: vs)).fst.data.registry
        (instKey (counterKeyOf key props) (k + i)) = some ((v :: vs).get ⟨i, hi⟩)
      simp only [runBatch]
      cases i with
      | zero =>
        have hq : ∀ j, j < vs.length →
            instKey (counterKeyOf key props) (k + 0)
              ≠ instKey (counterKeyOf key props) ((k + 1) + j) := by
          intro j hj h
          have := instKey_num_inj h
          omega
        rw [iframe (instKey (counterKeyOf key props) (k + 0)) hq]
        rw [hrr]
        have h00 : k + 0 = k := by omega
        rw [h00, alookup_aset_self]
        rfl
      | succ j =>
        have hj : j < vs.length := by simpa using Nat.lt_of_succ_lt_succ hi
        have harith : k + (j + 1) = (k + 1) + j := by omega
        rw [harith]
        exact istored j hj
    · intro q hq
      show alookup (runBatch key props dev s (v :: vs)).fst.data.registry q
        = alookup s.data.registry q
      simp only [runBatch]
      have hq' : ∀ j, j < vs.length →
          q ≠ instKey (counterKeyOf key props) ((k + 1) + j) := by
        intro j hj
        have harith : (k + 1) + j = k + (j + 1) := by omega
        rw [harith]
        exact hq (j + 1) (by simpa using Nat.succ_lt_succ hj)
      rw [iframe q hq', hrr]
      have hqk : q ≠ instKey (counterKeyOf key props) k := by
        have := hq 0 (by simp)
        simpa using this
      rw [alookup_aset_ne _ _ _ _ hqk]

/-- Iterated ancestor-triggered re-render batches: from any store whose
registry holds ws at instance keys 0, ..., ws.length-1, whose unit is not
invalidated, and whose counters are either already reset or have a reset
pending, every batch in every following repetition restores ws in order
with instance numbers from 0 and no factory invocation. -/
theorem batchIter_restore (key : String) (props : Option Props) (dev : Bool)
    (vals' ws : List Nat) (hlen : vals'.length = ws.length) :
    ∀ (reps : Nat) (t : Store),
      (∀ i, (hi : i < ws.length) →
        alookup t.data.registry (instKey (counterKeyOf key props) i)
          = some (ws.get ⟨i, hi⟩)) →
      invalidForces t.data key = false →
      ((alookup t.data.counters (counterKeyOf key props)).getD 0 = 0 ∨ t.pending = true) →
      ((∀ i, (hi : i < ws.length) →
        alookup (batchIter key props dev vals' t reps).fst.data.registry
          (instKey (counterKeyOf key props) i) = some (ws.get ⟨i, hi⟩)) ∧
       invalidForces (batchIter key props dev vals' t reps).fst.data key = false ∧
       ((alookup (batchIter key props dev vals' t reps).fst.data.counters
          (counterKeyOf key props)).getD 0 = 0 ∨
        (batchIter key props dev vals' t reps).fst.pending = true)) ∧
      (∀ outs ∈ (batchIter key props dev vals' t reps).snd,
        outs.map BOut.instanceNum = List.range' 0 vals'.length ∧
        outs.map BOut.value = ws ∧
        ∀ o ∈ outs, o.factoryCalled = false) := by
  intro reps
  induction reps with
  | zero =>
    intro t hreg hinv hcp
    exact ⟨⟨hreg, hinv, hcp⟩, by simp [batchIter]⟩
  | succ r ihr =>
    intro t hreg hinv hcp
    obtain ⟨⟨preg, pinv, pcp⟩, pouts⟩ := ihr t hreg hinv hcp
    have hfc : (alookup (flush (batchIter key props dev vals' t r).fst).data.counters
        (counterKeyOf key props)).getD 0 = 0 := by
      by_cases hp : (batchIter key props dev vals' t r).fst.pending = true
      · rw [flush_counters_of_pending _ hp]
        rfl
      · have hft : flush (batchIter key props dev vals' t r).fst
            = (batchIter key props dev vals' t r).fst := by
          unfold flush
          simp [hp]
        rw [hft]
        cases pcp with
        | inl h => exact h
        | inr h => exact absurd h hp
    have hfreg : ∀ i, (hi : i < ws.length) →
        alookup (flush (batchIter key props dev vals' t r).fst).data.registry
          (instKey (counterKeyOf key props) i) = some (ws.get ⟨i, hi⟩) := by
      intro i hi
      rw [flush_registry]
      exact preg i hi
    have hfinv : invalidForces (flush (batchIter key props dev vals' t r).fst).data key
        = false := by
      rw [invalidForces_congr key (flush_invalid _)]
      exact pinv
    obtain ⟨rr, rinv, rc, rpd, rval, rnum, rfc⟩ :=
      runBatch_restore key props dev vals' ws
        (flush (batchIter key props dev vals' t r).fst) 0 hlen hfc hfinv
        (fun i hi => by
          rw [Nat.zero_add]
          exact hfreg i hi)
    refine ⟨⟨?_, ?_, ?_⟩, ?_⟩
    · intro i hi
      show alookup (batchIter key props dev vals' t (r + 1)).fst.data.registry
        (instKey (counterKeyOf key props) i) = some (ws.get ⟨i, hi⟩)
      simp only [batchIter]
      rw [rr]
      exact hfreg i hi
    · show invalidForces (batchIter key props dev vals' t (r + 1)).fst.data key = false
      simp only [batchIter]
      rw [invalidForces_congr key rinv]
      exact hfinv
    · show (alookup (batchIter key props dev vals' t (r + 1)).fst.data.counters
        (counterKeyOf key props)).getD 0 = 0 ∨
        (batchIter key props dev vals' t (r + 1)).fst.pending = true
      simp only [batchIter]
      by_cases hv : vals' = []
      · left
        rw [rc, hv]
        rfl
      · right
        exact rpd hv
    · intro outs ho
      show outs.map BOut.instanceNum = List.range' 0 vals'.length ∧
        outs.map BOut.value = ws ∧ ∀ o ∈ outs, o.factoryCalled = false
      simp only [batchIter, List.mem_append, List.mem_singleton] at ho
      cases ho with
      | inl h => exact pouts outs h
      | inr h =>
        subst h
        exact ⟨rnum, rval, rfc⟩

/-- C6: cross-batch restore via the deferred reset. From a store whose
counters start at 0 for the CounterKey, whose unit is not invalidated,
and whose registry is fresh at the batch's instance keys, a batch of n
persist calls assigns instance numbers 0..n-1 and stores its n values;
then for every number of repetitions, each following batch of the same
persist calls run after the pending reset fired and with no intervening
checkStructure again assigns instance numbers from 0 and returns the same
n stored values in order with no factory invocation. -/
theorem c6_cross_batch_restore (s : Store) (key : String) (props : Option Props)
    (dev : Bool) (vals vals' : List Nat)
    (hc : (alookup s.data.counters (counterKeyOf key props)).getD 0 = 0)
    (hforce : invalidForces s.data key = false)
    (hfresh : ∀ i, i < vals.length →
      alookup s.data.registry (instKey (counterKeyOf key props) i) = none)
    (hlen : vals'.length = vals.length) :
    (runBatch key props dev s vals).snd.map BOut.instanceNum = List.range vals.length ∧
    (runBatch key props dev s vals).snd.map BOut.value = vals ∧
    (∀ o ∈ (runBatch key props dev s vals).snd, o.factoryCalled = true) ∧
    ∀ reps : Nat, ∀ outs ∈
      (batchIter key props dev vals' (runBatch key props dev s vals).fst reps).snd,
      outs.map BOut.instanceNum = List.range vals.length ∧
      outs.map BOut.value = vals ∧
      ∀ o ∈ outs, o.factoryCalled = false := by
  obtain ⟨cinv, ccnt, cpend, cval, cnum, cfc, cstored, cframe⟩ :=
    runBatch_create key props dev vals s 0 hc hforce
      (fun i hi => by
        rw [Nat.zero_add]
        exact hfresh i hi)
  have hstored0 : ∀ i, (hi : i < vals.length) →
      alookup (runBatch key props dev s vals).fst.data.registry
        (instKey (counterKeyOf key props) i) = some (vals.get ⟨i, hi⟩) := by
    intro i hi
    have := cstored i hi
    rwa [Nat.zero_add] at this
  have hinv0 : invalidForces (runBatch key props dev s vals).fst.data key = false := by
    rw [invalidForces_congr key cinv]
    exact hforce
  have hcp0 : (alookup (runBatch key props dev s vals).fst.data.counters
      (counterKeyOf key props)).getD 0 = 0 ∨
      (runBatch key props dev s vals).fst.pending = true := by
    by_cases hv : vals = []
    · left
      rw [ccnt, hv]
      rfl
    · right
      exact cpend hv
  refine ⟨?_, cval, cfc, ?_⟩
  · rw [cnum, List.range_eq_range']
  · intro reps outs ho
    obtain ⟨-, houts⟩ :=
      batchIter_restore key props dev vals' vals hlen reps
        (runBatch key props dev s vals).fst hstored0 hinv0 hcp0
    obtain ⟨hn, hv, hf⟩ := houts outs ho
    refine ⟨?_, hv, hf⟩
    rw [hn, hlen, List.range_eq_range']

theorem c6_cross_batch_restore_witness :
    (runBatch c1Key none true { data := c1d1, pending := false } [31, 32]).snd.map
      BOut.instanceNum = List.range 2 ∧
    (runBatch c1Key none true { data := c1d1, pending := false } [31, 32]).snd.map
      BOut.value = [31, 32] ∧
    (∀ o ∈ (runBatch c1Key none true { data := c1d1, pending := false } [31, 32]).snd,
      o.factoryCalled = true) ∧
    ∀ reps : Nat, ∀ outs ∈
      (batchIter c1Key none true [41, 42]
        (runBatch c1Key none true { data := c1d1, pending := false } [31, 32]).fst
        reps).snd,
      outs.map BOut.instanceNum = List.range 2 ∧
      outs.map BOut.value = [31, 32] ∧
      ∀ o ∈ outs, o.factoryCalled = false :=
  c6_cross_batch_restore { data := c1d1, pending := false } c1Key none true
    [31, 32] [41, 42] (by decide) (by decide)
    (by decide) (by decide)

end SolidBetterRefresh
